import Mathlib

/-!
Verification of the native addition function of the repository.

Source (src/native/src/lib.rs):

  #[napi]
  pub fn fast_add(a: u32, b: u32) -> u32 {
      a + b
  }

The function is compiled for the napi binding layer, i.e. it runs under
release-build semantics of Rust, where `+` on `u32` is two's-complement
wrap-around addition modulo 2^32.  We embed `u32` values as natural
numbers below 2^32 and `fast_add` as addition followed by reduction
modulo 2^32.
-/

/-- The modulus of 32-bit unsigned arithmetic. -/
def u32Mod : Nat := 4294967296

/-- The largest representable 32-bit unsigned integer. -/
def u32Max : Nat := 4294967295

/-- A natural number is a valid `u32` value iff it is at most `u32Max`. -/
def isU32 (n : Nat) : Prop := n ≤ u32Max

instance (n : Nat) : Decidable (isU32 n) := by
  unfold isU32; infer_instance

/-- Embedding of `fast_add` from src/native/src/lib.rs: `a + b` on `u32`
under release-build Rust semantics, i.e. wrap-around modulo 2^32. -/
def fast_add (a b : Nat) : Nat := (a + b) % u32Mod

theorem u32Mod_eq : u32Mod = 2 ^ 32 := by decide

theorem isU32_iff_lt (n : Nat) : isU32 n ↔ n < u32Mod := by
  unfold isU32 u32Max u32Mod; omega

/-- C1: for every pair of 32-bit unsigned integers `a` and `b` with
`a + b ≤ 4294967295`, `fast_add a b` returns exactly the arithmetic sum
`a + b`. -/
theorem fast_add_exact (a b : Nat) (ha : isU32 a) (hb : isU32 b)
    (hsum : a + b ≤ 4294967295) : fast_add a b = a + b := by
  unfold fast_add u32Mod
  omega

theorem fast_add_exact_witness :
    isU32 2 ∧ isU32 3 ∧ 2 + 3 ≤ 4294967295 ∧ fast_add 2 3 = 2 + 3 :=
  ⟨by decide, by decide, by decide,
    fast_add_exact 2 3 (by decide) (by decide) (by decide)⟩

/-- C2: `fast_add` applies one overflow policy uniformly over all
overflowing inputs, and that policy is wrap-around: for every pair of
32-bit unsigned integers whose sum exceeds 4294967295 the result is
`(a + b) % 2^32`; in particular `fast_add 4294967295 1` follows this
policy and yields 0 (not the saturation value 4294967295, and the call
does not fail). -/
theorem fast_add_overflow_policy_wrap (a b : Nat) (ha : isU32 a)
    (hb : isU32 b) (hov : 4294967295 < a + b) :
    fast_add a b = (a + b) % 2 ^ 32 := by
  unfold fast_add
  rw [u32Mod_eq]

theorem fast_add_overflow_policy_wrap_witness :
    isU32 4294967295 ∧ isU32 1 ∧ 4294967295 < 4294967295 + 1 ∧
      fast_add 4294967295 1 = (4294967295 + 1) % 2 ^ 32 ∧
      fast_add 4294967295 1 = 0 ∧ fast_add 4294967295 1 ≠ 4294967295 :=
  ⟨by decide, by decide, by decide,
    fast_add_overflow_policy_wrap 4294967295 1 (by decide) (by decide)
      (by decide),
    by decide, by decide⟩

/-- C3: `fast_add` is commutative: for every pair of natural numbers
(in particular for every pair of 32-bit unsigned integers),
`fast_add a b = fast_add b a`. -/
theorem fast_add_comm : ∀ a b : Nat, fast_add a b = fast_add b a := by
  intro a b
  unfold fast_add
  rw [Nat.add_comm]

/-- C4: zero is a right identity for `fast_add`: for every 32-bit
unsigned integer `a`, `fast_add a 0 = a`. -/
theorem fast_add_zero_right (a : Nat) (ha : isU32 a) : fast_add a 0 = a := by
  unfold fast_add u32Mod
  unfold isU32 u32Max at ha
  omega

theorem fast_add_zero_right_witness :
    isU32 42 ∧ fast_add 42 0 = 42 :=
  ⟨by decide, fast_add_zero_right 42 (by decide)⟩

/-- C5: `fast_add` is deterministic: any two invocations on the same
pair of inputs return the same result.  (The source body `a + b` is a
pure expression: it reads no state and writes no state, which is why it
embeds as a total function of its two arguments.) -/
theorem fast_add_deterministic (a b r₁ r₂ : Nat)
    (h₁ : fast_add a b = r₁) (h₂ : fast_add a b = r₂) : r₁ = r₂ := by
  rw [← h₁, ← h₂]

theorem fast_add_deterministic_witness :
    fast_add 2 3 = 5 ∧ fast_add 2 3 = 5 ∧ (5 : Nat) = 5 :=
  ⟨by decide, by decide,
    fast_add_deterministic 2 3 5 5 (by decide) (by decide)⟩

/-- C6: `fast_add` preserves the signature boundary: for every pair of
inputs in the unsigned 32-bit range, the returned value is itself in the
unsigned 32-bit range `0..=4294967295`. -/
theorem fast_add_in_range (a b : Nat) (ha : isU32 a) (hb : isU32 b) :
    isU32 (fast_add a b) := by
  unfold fast_add isU32 u32Max u32Mod
  omega

theorem fast_add_in_range_witness :
    isU32 4294967295 ∧ isU32 4294967295 ∧
      isU32 (fast_add 4294967295 4294967295) :=
  ⟨by decide, by decide,
    fast_add_in_range 4294967295 4294967295 (by decide) (by decide)⟩

/-- C7: at the upper boundary, `fast_add 4294967295 0 = 4294967295`. -/
theorem fast_add_boundary : fast_add 4294967295 0 = 4294967295 := by decide

/-- C8: on the concrete example inputs, `fast_add 2 3 = 5`. -/
theorem fast_add_example : fast_add 2 3 = 5 := by decide

/-- C9: under release-build semantics of Rust `+` on `u32`, `fast_add`
is total and wraps: for every pair of inputs the result is
`(a + b) % 2^32`, and in particular `fast_add 4294967295 1 = 0`. -/
theorem fast_add_total_wrap :
    (∀ a b : Nat, fast_add a b = (a + b) % 2 ^ 32) ∧
      fast_add 4294967295 1 = 0 := by
  constructor
  · intro a b
    unfold fast_add
    rw [u32Mod_eq]
  · decide

/-- C10: `fast_add` is associative under the wrapping embedding: for
every triple of inputs,
`fast_add (fast_add a b) c = fast_add a (fast_add b c)`. -/
theorem fast_add_assoc :
    ∀ a b c : Nat, fast_add (fast_add a b) c = fast_add a (fast_add b c) := by
  intro a b c
  unfold fast_add u32Mod
  omega
